import Mathlib

/-!
# Verification of the Semaphore_RTOS traffic-light controller

Shallow embedding of the Semaphore_RTOS subsystem: the `SemaphoreState`
enumeration and its advance operator (Types.h), the constant state table and
the `SemaphoreStateMachine` (Semaphore_State_Machine.h), the hardware
abstraction layer modelled as a trace of `digitalWrite` events
(Hardware_Abstraction_Layer.h), and the shared context, scoped lock and task
bodies (SemaphoreTasks.h).  Machine integers (`uint32_t`) are modelled as
`Nat` reduced modulo `2 ^ 32` where overflow matters; `millis()` is an
explicit time parameter.
-/

namespace SemaphoreSystem

/-- Modulus of `uint32_t` arithmetic. -/
def UINT32_MOD : Nat := 4294967296

/-- `uint32_t` subtraction `a - b` (wrapping), for operands read modulo 2^32. -/
def sub32 (a b : Nat) : Nat :=
  (a % UINT32_MOD + (UINT32_MOD - b % UINT32_MOD)) % UINT32_MOD

/-- The five semaphore states of `enum class SemaphoreState` (Types.h). -/
inductive SemaphoreState : Type where
  | GREEN_CAR
  | YELLOW_CAR
  | SAFETY_GAP_BEFORE
  | GREEN_PEDESTRIAN
  | SAFETY_GAP_AFTER
deriving DecidableEq, Fintype, Repr

/-- `toIndex` (Types.h): the underlying `uint8_t` value of each state. -/
def toIndex : SemaphoreState → Nat
  | .GREEN_CAR => 0
  | .YELLOW_CAR => 1
  | .SAFETY_GAP_BEFORE => 2
  | .GREEN_PEDESTRIAN => 3
  | .SAFETY_GAP_AFTER => 4

/-- Inverse of `toIndex`, modelling `static_cast<SemaphoreState>`; only ever
applied to values 1..4 (the cast in `operator++` runs only when the state is
not `LAST_STATE`), so the catch-all arm is never reached. -/
def ofIndex : Nat → SemaphoreState
  | 0 => .GREEN_CAR
  | 1 => .YELLOW_CAR
  | 2 => .SAFETY_GAP_BEFORE
  | 3 => .GREEN_PEDESTRIAN
  | _ => .SAFETY_GAP_AFTER

/-- `operator++(SemaphoreState&)` (Types.h, lines 98-105): wrap from
`LAST_STATE` (= SAFETY_GAP_AFTER) to `FIRST_STATE` (= GREEN_CAR), otherwise
cast of index + 1. -/
def succState (state : SemaphoreState) : SemaphoreState :=
  if state = SemaphoreState.SAFETY_GAP_AFTER then
    SemaphoreState.GREEN_CAR
  else
    ofIndex (toIndex state + 1)

/-- `enum class LedStatus : bool` (Types.h). -/
inductive LedStatus : Type where
  | OFF
  | ON
deriving DecidableEq, Fintype, Repr

/-- `toDigitalValue` (Types.h): HIGH = true, LOW = false. -/
def toDigitalValue : LedStatus → Bool
  | .ON => true
  | .OFF => false

/-- `struct LedConfiguration` (Types.h). -/
structure LedConfiguration : Type where
  redCar : LedStatus
  yellowCar : LedStatus
  greenCar : LedStatus
  redPedestrian : LedStatus
  greenPedestrian : LedStatus
deriving DecidableEq, Fintype, Repr

/-- `struct StateInfo` (Types.h). -/
structure StateInfo : Type where
  state : SemaphoreState
  duration : Nat
  ledConfig : LedConfiguration
  description : String
deriving DecidableEq, Repr

/-- `TimingConfig::GREEN_CAR_DURATION` (Config.h). -/
def GREEN_CAR_DURATION : Nat := 20000

/-- `TimingConfig::YELLOW_CAR_DURATION` (Config.h). -/
def YELLOW_CAR_DURATION : Nat := 3000

/-- `TimingConfig::SAFETY_GAP_DURATION` (Config.h). -/
def SAFETY_GAP_DURATION : Nat := 5000

/-- `TimingConfig::GREEN_PEDESTRIAN_DURATION` (Config.h). -/
def GREEN_PEDESTRIAN_DURATION : Nat := 20000

/-- `HardwareConfig` pin numbers (Config.h). -/
def LED_RED_CAR : Nat := 13

/-- `HardwareConfig::LED_YELLOW_CAR` (Config.h). -/
def LED_YELLOW_CAR : Nat := 12

/-- `HardwareConfig::LED_GREEN_CAR` (Config.h). -/
def LED_GREEN_CAR : Nat := 11

/-- `HardwareConfig::LED_GREEN_PEDESTRIAN` (Config.h). -/
def LED_GREEN_PEDESTRIAN : Nat := 10

/-- `HardwareConfig::LED_RED_PEDESTRIAN` (Config.h). -/
def LED_RED_PEDESTRIAN : Nat := 9

/-- `StateTable::stateTable_` (Semaphore_State_Machine.h, lines 27-97):
the constant five-entry lookup table. -/
def stateTable_ : List StateInfo :=
  [ { state := .GREEN_CAR,
      duration := GREEN_CAR_DURATION,
      ledConfig := { redCar := .OFF, yellowCar := .OFF, greenCar := .ON,
                     redPedestrian := .ON, greenPedestrian := .OFF },
      description := "GREEN_CAR: Green to cars, red to pedestrians" },
    { state := .YELLOW_CAR,
      duration := YELLOW_CAR_DURATION,
      ledConfig := { redCar := .OFF, yellowCar := .ON, greenCar := .OFF,
                     redPedestrian := .ON, greenPedestrian := .OFF },
      description := "YELLOW_CAR: Yellow to cars, red to pedestrians" },
    { state := .SAFETY_GAP_BEFORE,
      duration := SAFETY_GAP_DURATION,
      ledConfig := { redCar := .ON, yellowCar := .OFF, greenCar := .OFF,
                     redPedestrian := .ON, greenPedestrian := .OFF },
      description := "SAFETY_GAP_BEFORE: All red (safety gap before changing to green for pedestrians)" },
    { state := .GREEN_PEDESTRIAN,
      duration := GREEN_PEDESTRIAN_DURATION,
      ledConfig := { redCar := .ON, yellowCar := .OFF, greenCar := .OFF,
                     redPedestrian := .OFF, greenPedestrian := .ON },
      description := "GREEN_PEDESTRIAN: Green to pedestrians, red to cars" },
    { state := .SAFETY_GAP_AFTER,
      duration := SAFETY_GAP_DURATION,
      ledConfig := { redCar := .ON, yellowCar := .OFF, greenCar := .OFF,
                     redPedestrian := .ON, greenPedestrian := .OFF },
      description := "SAFETY_GAP_AFTER: All red (safety gap after changing to green for pedestrians)" } ]

/-- `StateTable::getStateInfo` (Semaphore_State_Machine.h): array lookup at
`toIndex state`.  The fallback is never reached since `toIndex` is below the
table length. -/
def getStateInfo (state : SemaphoreState) : StateInfo :=
  stateTable_.getD (toIndex state)
    { state := .GREEN_CAR, duration := 0,
      ledConfig := { redCar := .OFF, yellowCar := .OFF, greenCar := .OFF,
                     redPedestrian := .OFF, greenPedestrian := .OFF },
      description := "" }

/-- `StateTable::getStateDuration` (Semaphore_State_Machine.h). -/
def getStateDuration (state : SemaphoreState) : Nat :=
  (getStateInfo state).duration

/-- `StateTable::getLedConfiguration` (Semaphore_State_Machine.h). -/
def getLedConfiguration (state : SemaphoreState) : LedConfiguration :=
  (getStateInfo state).ledConfig

/-- A hardware write event: one `digitalWrite(pin, level)` call, recorded as
(pin, level) with HIGH = true, LOW = false. -/
abbrev WriteEvent := Nat × Bool

/-- `ArduinoHardwareController::turnAllLedsOff`
(Hardware_Abstraction_Layer.h, lines 122-130): the trace of writes it emits. -/
def turnAllLedsOff : List WriteEvent :=
  [(LED_RED_CAR, false),
   (LED_YELLOW_CAR, false),
   (LED_GREEN_CAR, false),
   (LED_RED_PEDESTRIAN, false),
   (LED_GREEN_PEDESTRIAN, false)]

/-- `ArduinoHardwareController::setLedState` (Hardware_Abstraction_Layer.h):
one `digitalWrite(pin, toDigitalValue(status))`. -/
def setLedState (pin : Nat) (status : LedStatus) : List WriteEvent :=
  [(pin, toDigitalValue status)]

/-- `ArduinoHardwareController::applyConfiguration`
(Hardware_Abstraction_Layer.h, lines 104-116): first `turnAllLedsOff()`, then
the five per-channel writes from the configuration, in source order. -/
def applyConfiguration (config : LedConfiguration) : List WriteEvent :=
  turnAllLedsOff ++
  (setLedState LED_RED_CAR config.redCar ++
   setLedState LED_YELLOW_CAR config.yellowCar ++
   setLedState LED_GREEN_CAR config.greenCar ++
   setLedState LED_RED_PEDESTRIAN config.redPedestrian ++
   setLedState LED_GREEN_PEDESTRIAN config.greenPedestrian)

/-- `ArduinoHardwareController::configurePinAsOutput`
(Hardware_Abstraction_Layer.h): `pinMode(pin, OUTPUT)` then
`digitalWrite(pin, LOW)`; only the write is recorded. -/
def configurePinAsOutput (pin : Nat) : List WriteEvent :=
  [(pin, false)]

/-- `ArduinoHardwareController::initialize`
(Hardware_Abstraction_Layer.h, lines 73-87): configure the five pins as
output (each write LOW), then `turnAllLedsOff()`. -/
def hwControllerInit : List WriteEvent :=
  configurePinAsOutput LED_RED_CAR ++
  configurePinAsOutput LED_YELLOW_CAR ++
  configurePinAsOutput LED_GREEN_CAR ++
  configurePinAsOutput LED_RED_PEDESTRIAN ++
  configurePinAsOutput LED_GREEN_PEDESTRIAN ++
  turnAllLedsOff

/-- The mutable fields of `class SemaphoreStateMachine`
(Semaphore_State_Machine.h, lines 130-137).  The hardware controller
reference is modelled by returning the trace of write events each operation
emits. -/
structure SemaphoreStateMachine : Type where
  currentState_ : SemaphoreState
  stateStartTime_ : Nat
  cycleCount_ : Nat
  isInitialized_ : Bool
deriving DecidableEq, Repr

/-- The `SemaphoreStateMachine` constructor (Semaphore_State_Machine.h,
lines 166-171). -/
def mkStateMachine : SemaphoreStateMachine :=
  { currentState_ := .GREEN_CAR, stateStartTime_ := 0,
    cycleCount_ := 0, isInitialized_ := false }

/-- `SemaphoreStateMachine::updateHardware` (Semaphore_State_Machine.h):
apply the current state's LED configuration. -/
def updateHardware (m : SemaphoreStateMachine) : List WriteEvent :=
  applyConfiguration (getLedConfiguration m.currentState_)

/-- `SemaphoreStateMachine::initialize` (Semaphore_State_Machine.h,
lines 177-182): idempotent hardware setup, models the method named
initialize in the source. -/
def machineSetup (m : SemaphoreStateMachine) :
    SemaphoreStateMachine × List WriteEvent :=
  if m.isInitialized_ then (m, [])
  else ({ m with isInitialized_ := true }, hwControllerInit)

/-- `SemaphoreStateMachine::begin` (Semaphore_State_Machine.h,
lines 188-199): set up if needed, reset to GREEN_CAR at time `now`
(= `millis()`), cycle count 1, apply the state's configuration. -/
def machineBegin (m : SemaphoreStateMachine) (now : Nat) :
    SemaphoreStateMachine × List WriteEvent :=
  let s := machineSetup m
  let m2 := { s.1 with
              currentState_ := SemaphoreState.GREEN_CAR
              stateStartTime_ := now % UINT32_MOD
              cycleCount_ := 1 }
  (m2, s.2 ++ updateHardware m2)

/-- `SemaphoreStateMachine::transitionToNextState`
(Semaphore_State_Machine.h, lines 229-250): advance to the successor state,
increment the cycle count exactly on the SAFETY_GAP_AFTER to GREEN_CAR wrap,
restart the state timer at `now` (= `millis()`), re-apply the hardware
configuration. -/
def transitionToNextState (m : SemaphoreStateMachine) (now : Nat) :
    SemaphoreStateMachine × List WriteEvent :=
  let previousState := m.currentState_
  let nextState := succState previousState
  let cc :=
    if nextState = SemaphoreState.GREEN_CAR ∧
       previousState = SemaphoreState.SAFETY_GAP_AFTER then
      (m.cycleCount_ + 1) % UINT32_MOD
    else
      m.cycleCount_
  let m2 := { m with
              currentState_ := nextState
              cycleCount_ := cc
              stateStartTime_ := now % UINT32_MOD }
  (m2, updateHardware m2)

/-- `SemaphoreStateMachine::update` (Semaphore_State_Machine.h,
lines 208-224): if uninitialized return false and do nothing; otherwise
transition exactly when the `uint32_t` elapsed time reaches the current
state's table duration.  Returns (new machine, whether a transition
occurred, trace of hardware writes). -/
def update (m : SemaphoreStateMachine) (now : Nat) :
    SemaphoreStateMachine × Bool × List WriteEvent :=
  if m.isInitialized_ = false then (m, false, [])
  else
    let currentTime := now % UINT32_MOD
    let elapsedTime := sub32 currentTime m.stateStartTime_
    let stateDuration := getStateDuration m.currentState_
    if stateDuration ≤ elapsedTime then
      let t := transitionToNextState m now
      (t.1, true, t.2)
    else
      (m, false, [])

/-- `SemaphoreStateMachine::getTimeRemainingInState`
(Semaphore_State_Machine.h, lines 269-278). -/
def getTimeRemainingInState (m : SemaphoreStateMachine) (now : Nat) : Nat :=
  let elapsedTime := sub32 (now % UINT32_MOD) m.stateStartTime_
  let stateDuration := getStateDuration m.currentState_
  if stateDuration ≤ elapsedTime then 0
  else stateDuration - elapsedTime

/-- `SemaphoreStateMachine::emergencyStop` (Semaphore_State_Machine.h,
lines 283-289): emit `turnAllLedsOff()`; no logical field is touched. -/
def emergencyStop (m : SemaphoreStateMachine) :
    SemaphoreStateMachine × List WriteEvent :=
  (m, turnAllLedsOff)

/-- Fold a sequence of `update` calls at the given `millis()` readings,
keeping only the machine. -/
def runUpdates (m : SemaphoreStateMachine) (times : List Nat) :
    SemaphoreStateMachine :=
  times.foldl (fun acc t => (update acc t).1) m

/-- An operation on the FreeRTOS mutex, as emitted by `SharedContext`:
`give` records one `xSemaphoreGive` call. -/
inductive SemOp : Type where
  | give
deriving DecidableEq, Repr

/-- The fields of `class SharedContext` (SemaphoreTasks.h, lines 27-114).
`mutex_` is `none` when `xSemaphoreCreateMutex()` returned null. -/
structure SharedContext : Type where
  mutex_ : Option Unit
  systemActive_ : Bool
  totalTransitions_ : Nat
deriving DecidableEq, Repr

/-- The `SharedContext` constructor (SemaphoreTasks.h, lines 38-49):
`createOutcome` is the result of `xSemaphoreCreateMutex()` (none = null). -/
def mkSharedContext (createOutcome : Option Unit) : SharedContext :=
  { mutex_ := createOutcome, systemActive_ := true, totalTransitions_ := 0 }

/-- `SharedContext::lock` (SemaphoreTasks.h, lines 61-66): when the mutex
handle is non-null, return the outcome of `xSemaphoreTake` (decided by the
scheduler environment, passed as `takeOutcome`); when null, return false. -/
def SharedContext.lock (ctx : SharedContext) (takeOutcome : Bool)
    (_timeout : Nat) : Bool :=
  match ctx.mutex_ with
  | some _ => takeOutcome
  | none => false

/-- `SharedContext::unlock` (SemaphoreTasks.h, lines 71-75): the list of
semaphore operations the call emits — one `give` when the handle is
non-null, nothing when it is null. -/
def SharedContext.unlock (ctx : SharedContext) : List SemOp :=
  match ctx.mutex_ with
  | some _ => [SemOp.give]
  | none => []

/-- `portMAX_DELAY`, the unbounded timeout constant. -/
def portMAX_DELAY : Nat := 4294967295

/-- The field of `class ScopedLock` (SemaphoreTasks.h, lines 120-143). -/
structure ScopedLock : Type where
  locked_ : Bool
deriving DecidableEq, Repr

/-- The `ScopedLock` constructor (SemaphoreTasks.h, lines 125-128):
`locked_ = context_.lock(timeout)`. -/
def mkScopedLock (ctx : SharedContext) (takeOutcome : Bool)
    (timeout : Nat) : ScopedLock :=
  { locked_ := ctx.lock takeOutcome timeout }

/-- The `ScopedLock` destructor (SemaphoreTasks.h, lines 130-134): unlock
only when the acquisition had succeeded. -/
def scopedLockDrop (ctx : SharedContext) (l : ScopedLock) : List SemOp :=
  if l.locked_ then ctx.unlock else []

/-- One iteration of the loop body of `semaphoreControlTask`
(SemaphoreTasks.h, lines 165-184): scoped lock; if locked and the system is
active, call `update` and increment the transition counter when it reports a
change; the scoped lock is dropped at block exit.  Returns the new context,
the new machine, and the semaphore operations emitted on block exit. -/
def semaphoreControlIteration (ctx : SharedContext) (takeOutcome : Bool)
    (m : SemaphoreStateMachine) (now : Nat) :
    SharedContext × SemaphoreStateMachine × List SemOp :=
  let lk := mkScopedLock ctx takeOutcome portMAX_DELAY
  let step :=
    if lk.locked_ && ctx.systemActive_ then
      let r := update m now
      if r.2.1 then
        ({ ctx with totalTransitions_ :=
             (ctx.totalTransitions_ + 1) % UINT32_MOD }, r.1)
      else (ctx, m)
    else (ctx, m)
  (step.1, step.2, scopedLockDrop ctx lk)

/-- The RTOS API calls appearing in the loop body of `monitorTask`
(SemaphoreTasks.h, lines 210-250), in source order. -/
inductive MonitorAction : Type where
  | callTaskDelete
  | callTaskDelayUntil
  | scopedAcquire
  | readStatusAndReport
  | scopedRelease
deriving DecidableEq, BEq, Repr

/-- The loop body of `monitorTask` (SemaphoreTasks.h, lines 210-250) as the
sequence of RTOS calls it performs: the source's first statement is
`vTaskDelete(&lastWakeTime, period)` (line 212), then the scoped lock is
constructed, the status report runs only when locked and active, and the
scoped lock is dropped (releasing only if it had locked). -/
def monitorLoopBody (lockOk active : Bool) : List MonitorAction :=
  [MonitorAction.callTaskDelete] ++
  [MonitorAction.scopedAcquire] ++
  (if lockOk && active then [MonitorAction.readStatusAndReport] else []) ++
  (if lockOk then [MonitorAction.scopedRelease] else [])

/-! ## Helper lemmas -/

/-- `update` either does nothing and reports false, or performs exactly the
single transition `transitionToNextState` and reports true. -/
theorem update_cases (m : SemaphoreStateMachine) (now : Nat) :
    update m now = (m, false, []) ∨
    update m now =
      ((transitionToNextState m now).1, true, (transitionToNextState m now).2) := by
  unfold update
  split
  · exact Or.inl rfl
  · dsimp only
    split
    · exact Or.inr rfl
    · exact Or.inl rfl

/-- The state after `transitionToNextState` is the successor of the state
before it. -/
theorem transition_currentState (m : SemaphoreStateMachine) (now : Nat) :
    (transitionToNextState m now).1.currentState_ = succState m.currentState_ :=
  rfl

/-- The cycle count after `transitionToNextState` increments modulo 2^32
exactly when the previous state was SAFETY_GAP_AFTER. -/
theorem transition_cycleCount (m : SemaphoreStateMachine) (now : Nat) :
    (transitionToNextState m now).1.cycleCount_ =
      if m.currentState_ = SemaphoreState.SAFETY_GAP_AFTER then
        (m.cycleCount_ + 1) % UINT32_MOD
      else m.cycleCount_ := by
  show (if succState m.currentState_ = SemaphoreState.GREEN_CAR ∧
          m.currentState_ = SemaphoreState.SAFETY_GAP_AFTER then
          (m.cycleCount_ + 1) % UINT32_MOD
        else m.cycleCount_) = _
  cases m.currentState_ <;> simp [succState, toIndex, ofIndex]

/-- Every write emitted by `turnAllLedsOff` is an OFF write. -/
theorem mem_turnAllLedsOff_off :
    ∀ (p : Nat) (b : Bool), (p, b) ∈ turnAllLedsOff → b = false := by
  intro p b hb
  simp only [turnAllLedsOff, List.mem_cons, List.not_mem_nil, or_false,
    Prod.mk.injEq] at hb
  rcases hb with ⟨-, rfl⟩ | ⟨-, rfl⟩ | ⟨-, rfl⟩ | ⟨-, rfl⟩ | ⟨-, rfl⟩ <;> rfl

/-! ## Claims -/

/-- C1: every `update()` call that performs a transition moves the current
state to its unique cyclic successor in the fixed order GREEN_CAR,
YELLOW_CAR, SAFETY_GAP_BEFORE, GREEN_PEDESTRIAN, SAFETY_GAP_AFTER, wrapping
back to GREEN_CAR; `begin()` starts the sequence at GREEN_CAR, so any
sequence of `update()` calls yields exactly this cyclic rotation with no
state skipped, repeated or reordered. -/
theorem claim_C1_cycle_order :
    (succState SemaphoreState.GREEN_CAR = SemaphoreState.YELLOW_CAR ∧
     succState SemaphoreState.YELLOW_CAR = SemaphoreState.SAFETY_GAP_BEFORE ∧
     succState SemaphoreState.SAFETY_GAP_BEFORE = SemaphoreState.GREEN_PEDESTRIAN ∧
     succState SemaphoreState.GREEN_PEDESTRIAN = SemaphoreState.SAFETY_GAP_AFTER ∧
     succState SemaphoreState.SAFETY_GAP_AFTER = SemaphoreState.GREEN_CAR) ∧
    (∀ (m : SemaphoreStateMachine) (now : Nat),
      (update m now).2.1 = true →
      (update m now).1.currentState_ = succState m.currentState_) ∧
    (∀ (m : SemaphoreStateMachine) (now : Nat),
      (machineBegin m now).1.currentState_ = SemaphoreState.GREEN_CAR) := by
  refine ⟨by decide, ?_, fun m now => rfl⟩
  intro m now h
  rcases update_cases m now with hc | hc
  · rw [hc] at h
    exact Bool.noConfusion h
  · rw [hc]
    exact transition_currentState m now

/-- C1 witness: a concrete transitioning call, at GREEN_CAR with elapsed
time exactly the GREEN_CAR duration. -/
theorem claim_C1_cycle_order_witness :
    (update ⟨SemaphoreState.GREEN_CAR, 0, 1, true⟩ 20000).2.1 = true ∧
    (update ⟨SemaphoreState.GREEN_CAR, 0, 1, true⟩ 20000).1.currentState_ =
      succState SemaphoreState.GREEN_CAR :=
  ⟨by decide, claim_C1_cycle_order.2.1 ⟨SemaphoreState.GREEN_CAR, 0, 1, true⟩ 20000 (by decide)⟩

/-- C2: a single `update()` call performs at most one state transition —
it either leaves the machine unchanged reporting false, or advances exactly
one step reporting true — even when the elapsed time exceeds the sum of
several state durations (the concrete call below has elapsed time 1000000 ms,
far beyond the 53000 ms full cycle, yet only reaches YELLOW_CAR). -/
theorem claim_C2_single_step :
    (∀ (m : SemaphoreStateMachine) (now : Nat),
      ((update m now).2.1 = false ∧ (update m now).1 = m) ∨
      ((update m now).2.1 = true ∧
       (update m now).1.currentState_ = succState m.currentState_)) ∧
    (update ⟨SemaphoreState.GREEN_CAR, 0, 1, true⟩ 1000000).1.currentState_ =
      SemaphoreState.YELLOW_CAR := by
  refine ⟨?_, by decide⟩
  intro m now
  rcases update_cases m now with hc | hc
  · exact Or.inl ⟨by rw [hc], by rw [hc]⟩
  · exact Or.inr ⟨by rw [hc], by rw [hc]; exact transition_currentState m now⟩

/-- Encodes the exclusivity property claimed for a table entry: vehicle
green and pedestrian green are not both ON, and when pedestrian green is ON
at most one of vehicle green and vehicle yellow is ON. -/
def entryExclusive (cfg : LedConfiguration) : Bool :=
  (!(toDigitalValue cfg.greenCar && toDigitalValue cfg.greenPedestrian)) &&
  ((!(toDigitalValue cfg.greenPedestrian)) ||
   (!(toDigitalValue cfg.greenCar && toDigitalValue cfg.yellowCar)))

/-- C4: every entry of the five-entry state table satisfies output
exclusivity — vehicle-green and pedestrian-green never both ON, and at most
one of vehicle-green and vehicle-yellow ON simultaneously with
pedestrian-green ON. -/
theorem claim_C4_output_exclusivity :
    ∀ s : SemaphoreState, entryExclusive (getLedConfiguration s) = true := by
  decide

/-- C5: `begin()` sets the cycle count to 1; `transitionToNextState`
increments it exactly on the wrap from SAFETY_GAP_AFTER back to GREEN_CAR
and on no other transition; concretely, after one full traversal of the five
states the count reads 2, and after two traversals it reads 3. -/
theorem claim_C5_cycle_counting :
    (∀ (m : SemaphoreStateMachine) (now : Nat),
      (machineBegin m now).1.cycleCount_ = 1) ∧
    (∀ (m : SemaphoreStateMachine) (now : Nat),
      (transitionToNextState m now).1.cycleCount_ =
        if m.currentState_ = SemaphoreState.SAFETY_GAP_AFTER then
          (m.cycleCount_ + 1) % UINT32_MOD
        else m.cycleCount_) ∧
    (runUpdates (machineBegin mkStateMachine 0).1
      [20000, 23000, 28000, 48000, 53000]).cycleCount_ = 2 ∧
    (runUpdates (machineBegin mkStateMachine 0).1
      [20000, 23000, 28000, 48000, 53000,
       73000, 76000, 81000, 101000, 106000]).cycleCount_ = 3 :=
  ⟨fun m now => rfl, transition_cycleCount, by decide, by decide⟩

/-- The five LED output pins, in the order the HAL writes them. -/
def ledPins : List Nat :=
  [LED_RED_CAR, LED_YELLOW_CAR, LED_GREEN_CAR,
   LED_RED_PEDESTRIAN, LED_GREEN_PEDESTRIAN]

/-- C3: `applyConfiguration(cfg)` first emits the all-off writes and only
then the five channel writes from `cfg`, in that order; every write of the
all-off block is OFF; hence for every channel the first write to that
channel within the emitted sequence is an OFF write, so no channel passes
directly from one ON pattern to another without an intervening all-OFF
write. -/
theorem claim_C3_glitch_free_apply :
    (∀ cfg : LedConfiguration,
      applyConfiguration cfg =
        turnAllLedsOff ++
        (setLedState LED_RED_CAR cfg.redCar ++
         setLedState LED_YELLOW_CAR cfg.yellowCar ++
         setLedState LED_GREEN_CAR cfg.greenCar ++
         setLedState LED_RED_PEDESTRIAN cfg.redPedestrian ++
         setLedState LED_GREEN_PEDESTRIAN cfg.greenPedestrian)) ∧
    (∀ (p : Nat) (b : Bool), (p, b) ∈ turnAllLedsOff → b = false) ∧
    (∀ (cfg : LedConfiguration) (p : Nat), p ∈ ledPins →
      (((applyConfiguration cfg).filter (fun e => e.1 == p)).head?).map
        Prod.snd = some false) := by
  refine ⟨fun cfg => rfl, mem_turnAllLedsOff_off, ?_⟩
  intro cfg p hp
  fin_cases hp <;> revert cfg <;> decide

/-- C3 witness: the vehicle-green channel, with every channel commanded ON;
also a concrete all-off write. -/
theorem claim_C3_glitch_free_apply_witness :
    ((LED_YELLOW_CAR, false) ∈ turnAllLedsOff ∧ false = false) ∧
    (LED_GREEN_CAR ∈ ledPins ∧
      (((applyConfiguration ⟨.ON, .ON, .ON, .ON, .ON⟩).filter
          (fun e => e.1 == LED_GREEN_CAR)).head?).map Prod.snd = some false) :=
  ⟨⟨by decide, claim_C3_glitch_free_apply.2.1 LED_YELLOW_CAR false (by decide)⟩,
   ⟨by decide, claim_C3_glitch_free_apply.2.2 ⟨.ON, .ON, .ON, .ON, .ON⟩
      LED_GREEN_CAR (by decide)⟩⟩

/-- C6: `getTimeRemainingInState()` never exceeds the state's duration
(no negative or wrapped value), returns 0 whenever the `uint32_t` elapsed
time reaches or exceeds the duration — independently of any `update()`
call — and returns duration minus elapsed time otherwise. -/
theorem claim_C6_time_remaining :
    ∀ (m : SemaphoreStateMachine) (now : Nat),
      getTimeRemainingInState m now ≤ getStateDuration m.currentState_ ∧
      (getStateDuration m.currentState_ ≤
          sub32 (now % UINT32_MOD) m.stateStartTime_ →
        getTimeRemainingInState m now = 0) ∧
      (sub32 (now % UINT32_MOD) m.stateStartTime_ <
          getStateDuration m.currentState_ →
        getTimeRemainingInState m now =
          getStateDuration m.currentState_ -
            sub32 (now % UINT32_MOD) m.stateStartTime_) := by
  intro m now
  simp only [getTimeRemainingInState]
  split_ifs with h <;> omega

/-- C6 witness: at GREEN_CAR begun at time 0, reading at 25000 ms (past the
20000 ms duration) gives 0, and reading at 5000 ms gives the difference. -/
theorem claim_C6_time_remaining_witness :
    (getStateDuration (SemaphoreStateMachine.mk
        SemaphoreState.GREEN_CAR 0 1 true).currentState_ ≤
      sub32 (25000 % UINT32_MOD)
        (SemaphoreStateMachine.mk SemaphoreState.GREEN_CAR 0 1 true).stateStartTime_ ∧
     getTimeRemainingInState
       (SemaphoreStateMachine.mk SemaphoreState.GREEN_CAR 0 1 true) 25000 = 0) ∧
    (sub32 (5000 % UINT32_MOD)
        (SemaphoreStateMachine.mk SemaphoreState.GREEN_CAR 0 1 true).stateStartTime_ <
      getStateDuration (SemaphoreStateMachine.mk
        SemaphoreState.GREEN_CAR 0 1 true).currentState_ ∧
     getTimeRemainingInState
       (SemaphoreStateMachine.mk SemaphoreState.GREEN_CAR 0 1 true) 5000 =
       getStateDuration (SemaphoreStateMachine.mk
         SemaphoreState.GREEN_CAR 0 1 true).currentState_ -
         sub32 (5000 % UINT32_MOD)
           (SemaphoreStateMachine.mk SemaphoreState.GREEN_CAR 0 1 true).stateStartTime_) :=
  ⟨⟨by decide,
    (claim_C6_time_remaining
      (SemaphoreStateMachine.mk SemaphoreState.GREEN_CAR 0 1 true) 25000).2.1
      (by decide)⟩,
   ⟨by decide,
    (claim_C6_time_remaining
      (SemaphoreStateMachine.mk SemaphoreState.GREEN_CAR 0 1 true) 5000).2.2
      (by decide)⟩⟩

/-- C7: on an uninitialized machine, `update()` returns false, changes no
field, and emits no hardware write. -/
theorem claim_C7_uninitialized_noop :
    ∀ (m : SemaphoreStateMachine) (now : Nat),
      m.isInitialized_ = false → update m now = (m, false, []) := by
  intro m now h
  unfold update
  simp [h]

/-- C7 witness: the freshly constructed machine is uninitialized and its
`update` is a no-op. -/
theorem claim_C7_uninitialized_noop_witness :
    mkStateMachine.isInitialized_ = false ∧
    update mkStateMachine 999 = (mkStateMachine, false, []) :=
  ⟨rfl, claim_C7_uninitialized_noop mkStateMachine 999 rfl⟩

/-- C8: `emergencyStop()` leaves every logical field of the machine
unchanged, emits exactly the all-off writes (bypassing the state table),
every emitted write is OFF, and a subsequent `update()` behaves exactly as
it would from the logically current state. -/
theorem claim_C8_emergency_stop_frame :
    ∀ m : SemaphoreStateMachine,
      (emergencyStop m).1 = m ∧
      (emergencyStop m).2 = turnAllLedsOff ∧
      (∀ (p : Nat) (b : Bool), (p, b) ∈ (emergencyStop m).2 → b = false) ∧
      (∀ now : Nat, update (emergencyStop m).1 now = update m now) := by
  intro m
  exact ⟨rfl, rfl, mem_turnAllLedsOff_off, fun now => rfl⟩

/-- C8 witness: a concrete machine mid-cycle; the all-off write to pin 13 is
in the emitted trace. -/
theorem claim_C8_emergency_stop_frame_witness :
    (13, false) ∈
      (emergencyStop
        (SemaphoreStateMachine.mk SemaphoreState.GREEN_PEDESTRIAN 100 2 true)).2 ∧
    false = false :=
  ⟨by decide,
   (claim_C8_emergency_stop_frame
     (SemaphoreStateMachine.mk SemaphoreState.GREEN_PEDESTRIAN 100 2 true)).2.2.1
     13 false (by decide)⟩

/-- C9 (divergence witness): the loop body of `monitorTask` as written does
not begin with a wait-until-deadline call — its first statement is a
`vTaskDelete` call (SemaphoreTasks.h line 212) and no `vTaskDelayUntil`
call occurs anywhere in the body, for every lock/active outcome. -/
theorem claim_C9_monitor_no_delay_until :
    ∀ lockOk active : Bool,
      (monitorLoopBody lockOk active).head? =
        some MonitorAction.callTaskDelete ∧
      (monitorLoopBody lockOk active).contains
        MonitorAction.callTaskDelayUntil = false := by
  decide

/-- C10: when the mutex handle is null, every `lock(timeout)` call returns
false and every `unlock()` emits nothing, for every timeout and take
outcome; a control-task iteration then skips its critical section, leaving
the shared counters and the state machine untouched; and the scoped-lock
destructor emits the unlock only when the acquisition had succeeded. -/
theorem claim_C10_null_mutex :
    ∀ (takeOutcome : Bool) (timeout : Nat) (active : Bool) (n : Nat)
      (m : SemaphoreStateMachine) (now : Nat) (ctx : SharedContext),
      SharedContext.lock ⟨none, active, n⟩ takeOutcome timeout = false ∧
      SharedContext.unlock ⟨none, active, n⟩ = [] ∧
      semaphoreControlIteration ⟨none, active, n⟩ takeOutcome m now =
        (⟨none, active, n⟩, m, []) ∧
      scopedLockDrop ctx ⟨false⟩ = [] ∧
      scopedLockDrop ctx ⟨true⟩ = ctx.unlock := by
  intro takeOutcome timeout active n m now ctx
  exact ⟨rfl, rfl, rfl, rfl, rfl⟩

end SemaphoreSystem
